import Mathlib

/-!
Verification of the video-quickstart room client: a shallow embedding of the two source files of the repository:

* `quickstart/src/joinroom.js` — the room-joining flow: the active-participant
  state machine (`activeParticipant` / `isActiveParticipantPinned`,
  `setActiveParticipant`, `setCurrentActiveParticipant`, the container click
  handler, the `dominantSpeakerChanged` and `participantDisconnected` handlers),
  the publication attach/detach wiring (`trackPublished`, `attachTrack`,
  `detachTrack`), and the teardown path (the `disconnected` handler registered
  with `once`, triggered by the leave button, `beforeunload`/`pagehide`, or a
  provider-initiated disconnect).

* the device-selection module (`applyInputDevice`, `getInputDevices`,
  `selectMedia`) — the `localTracks` cache holding at most one capture track
  per media kind.

Participants and tracks are identified by natural numbers; DOM effects are
recorded as abstract actions or counters.  All handlers run atomically on the
single event-loop thread, so each handler invocation is one step of a state
machine and traces are lists of events folded over the state.
-/

namespace JoinRoom

/-- A snapshot of the fields of the Twilio `Room` object that the handlers in
`joinroom.js` read: `room.dominantSpeaker` (nullable) and
`room.localParticipant`.  Participants are identified by `Nat`. -/
structure RoomSnapshot where
  dominantSpeaker : Option Nat
  localParticipant : Nat
  deriving DecidableEq, Repr

/-- The module-level mutable state of `joinroom.js`:
`let activeParticipant = null` and `let isActiveParticipantPinned = false`. -/
structure ActiveState where
  activeParticipant : Option Nat
  isActiveParticipantPinned : Bool
  deriving DecidableEq, Repr

/-- The state at module load: no active participant, not pinned. -/
def initialActiveState : ActiveState :=
  { activeParticipant := none, isActiveParticipantPinned := false }

/-- Function `setActiveParticipant(participant)`: stores the participant as the active
one (the DOM class shuffling has no effect on the modelled state; the pinned
flag is read but not written). -/
def setActiveParticipant (participant : Nat) (s : ActiveState) : ActiveState :=
  { s with activeParticipant := some participant }

/-- Function `setCurrentActiveParticipant(room)`: destructures
`{ dominantSpeaker, localParticipant }` from the room and calls
`setActiveParticipant(dominantSpeaker || localParticipant)` — the local
participant is the fallback when no dominant speaker is reported (`null` is
falsy). -/
def setCurrentActiveParticipant (room : RoomSnapshot) (s : ActiveState) : ActiveState :=
  setActiveParticipant (room.dominantSpeaker.getD room.localParticipant) s

/-- The click handler installed on a participant's `<div>` container in
`attachVideoTrack`: if the clicked participant is the active one and is
pinned, unpin and re-resolve from the room; otherwise pin the clicked
participant.  `room` is the `window.room` read inside the handler. -/
def containerClick (room : RoomSnapshot) (participant : Nat) (s : ActiveState) : ActiveState :=
  if s.activeParticipant = some participant ∧ s.isActiveParticipantPinned = true then
    setCurrentActiveParticipant room { s with isActiveParticipantPinned := false }
  else
    setActiveParticipant participant { s with isActiveParticipantPinned := true }

/-- The `room.on('dominantSpeakerChanged', ...)` handler: update the active
participant only if the user has not pinned one.  The `room` argument carries
the room's dominant speaker at the time the event fires. -/
def onDominantSpeakerChanged (room : RoomSnapshot) (s : ActiveState) : ActiveState :=
  if s.isActiveParticipantPinned = true then s
  else setCurrentActiveParticipant room s

/-- The `room.on('participantDisconnected', ...)` handler: if the disconnected
participant was pinned as the active participant, unpin it and update the
current active participant from the room. -/
def onParticipantDisconnected (room : RoomSnapshot) (participant : Nat)
    (s : ActiveState) : ActiveState :=
  if s.activeParticipant = some participant ∧ s.isActiveParticipantPinned = true then
    setCurrentActiveParticipant room { s with isActiveParticipantPinned := false }
  else s

/-- Events dispatched to the active-participant state machine.  Each event
carries the room's dominant speaker at the moment its handler runs. -/
inductive ActiveEvent where
  | dominantSpeakerChanged (room : RoomSnapshot)
  | click (room : RoomSnapshot) (participant : Nat)
  | participantDisconnected (room : RoomSnapshot) (participant : Nat)
  deriving DecidableEq, Repr

/-- Dispatch one event to its handler. -/
def activeStep (s : ActiveState) (e : ActiveEvent) : ActiveState :=
  match e with
  | .dominantSpeakerChanged room => onDominantSpeakerChanged room s
  | .click room participant => containerClick room participant s
  | .participantDisconnected room participant => onParticipantDisconnected room participant s

/-- Run a list of events through the state machine. -/
def runActive (s : ActiveState) (evs : List ActiveEvent) : ActiveState :=
  evs.foldl activeStep s

/-- An event that neither clicks a container nor disconnects participant `a`:
a dominant-speaker change, or the disconnection of some other participant. -/
def leavesPinAlone (a : Nat) (e : ActiveEvent) : Bool :=
  match e with
  | .dominantSpeakerChanged _ => true
  | .click _ _ => false
  | .participantDisconnected _ p => p ≠ a

/-- The DOM-binding operations `attachTrack` / `detachTrack` perform on one
track. -/
inductive TrackAction where
  | attach
  | detach
  deriving DecidableEq, Repr

/-- Subscription transitions a `RemoteTrackPublication` emits after
`trackPublished` registered its listeners. -/
inductive SubEvent where
  | subscribed
  | unsubscribed
  deriving DecidableEq, Repr

/-- The listeners registered by `trackPublished`: `publication.on('subscribed')`
attaches the track, `publication.on('unsubscribed')` detaches it. -/
def subEventAction : SubEvent → TrackAction
  | .subscribed => .attach
  | .unsubscribed => .detach

/-- The attach/detach operations performed for one publication over its
lifetime in the session: `trackPublished(publication, participant)` attaches
immediately iff `publication.track` is already present (already subscribed at
registration time), then each `subscribed` event attaches and each
`unsubscribed` event detaches. -/
def trackPublishedActions (alreadySubscribed : Bool) (evs : List SubEvent) : List TrackAction :=
  (if alreadySubscribed then [TrackAction.attach] else []) ++ evs.map subEventAction

/-- The provider contract on a publication's event stream: starting from
subscription state `b`, `subscribed` fires only while unsubscribed and
`unsubscribed` only while subscribed (and the provider emits `unsubscribed`
for still-subscribed tracks when the session ends). -/
def validFrom (b : Bool) : List SubEvent → Bool
  | [] => true
  | .subscribed :: evs => !b && validFrom true evs
  | .unsubscribed :: evs => b && validFrom false evs

/-- The publication's subscription state after a stream of events. -/
def subStateAfter (b : Bool) : List SubEvent → Bool
  | [] => b
  | .subscribed :: evs => subStateAfter true evs
  | .unsubscribed :: evs => subStateAfter false evs

def countAttach : List TrackAction → Nat
  | [] => 0
  | .attach :: rest => countAttach rest + 1
  | .detach :: rest => countAttach rest

def countDetach : List TrackAction → Nat
  | [] => 0
  | .detach :: rest => countDetach rest + 1
  | .attach :: rest => countDetach rest

/-- Predicate `noAttachAfter lastWasAttach l` is `true` iff no attach in `l` directly
follows another attach (tracking whether the preceding action, if any, was an
attach). -/
def noAttachAfter (lastWasAttach : Bool) : List TrackAction → Bool
  | [] => true
  | .attach :: rest => !lastWasAttach && noAttachAfter true rest
  | .detach :: rest => noAttachAfter false rest

/-- No two consecutive attaches: the track is never attached while already
attached. -/
def noDoubleAttach (l : List TrackAction) : Bool :=
  noAttachAfter false l

/-- The teardown-relevant state of one joined room session: whether the Twilio
room is still connected, whether the `room.once('disconnected', ...)`
registration is still armed, whether the `$leave` click handler installed by
`joinRoom` is still attached, counters for the observable teardown effects
(detaching the local preview via `detachTrack`, clearing
`$activeVideo.srcObject`, releasing `window.room`), and whether the Promise
returned from inside `joinRoom` has resolved. -/
structure SessionState where
  roomConnected : Bool
  disconnectedHandlerArmed : Bool
  leaveHandlerAttached : Bool
  localDetachCount : Nat
  activeClearCount : Nat
  roomHandleReleaseCount : Nat
  promiseResolved : Bool
  deriving DecidableEq, Repr

/-- The session state right after `joinRoom`'s `connect(...).then` callback has
run its setup: connected, handlers registered, no teardown effect yet, promise
pending. -/
def initialSessionState : SessionState :=
  { roomConnected := true, disconnectedHandlerArmed := true, leaveHandlerAttached := true,
    localDetachCount := 0, activeClearCount := 0, roomHandleReleaseCount := 0,
    promiseResolved := false }

/-- The room emitting `disconnected`: the handler `joinRoom` registered with
`once` detaches the local preview, clears the active video surface, clears
`window.room` and resolves the Promise; `once` disarms the registration, so a
later emission runs nothing. -/
def fireDisconnected (s : SessionState) : SessionState :=
  if s.disconnectedHandlerArmed then
    { s with disconnectedHandlerArmed := false,
             localDetachCount := s.localDetachCount + 1,
             activeClearCount := s.activeClearCount + 1,
             roomHandleReleaseCount := s.roomHandleReleaseCount + 1,
             promiseResolved := true }
  else s

/-- Method `room.disconnect()`: a no-op on an already-disconnected room; otherwise the
room transitions to disconnected and emits `disconnected`. -/
def roomDisconnect (s : SessionState) : SessionState :=
  if s.roomConnected then fireDisconnected { s with roomConnected := false } else s

/-- The sources that can start a teardown: the leave button (whose handler
de-registers itself before disconnecting), the `beforeunload` and `pagehide`
page signals, and a provider-initiated disconnect (the room ends remotely and
emits `disconnected` itself). -/
inductive TeardownTrigger where
  | leaveClick
  | beforeunload
  | pagehide
  | providerDisconnect
  deriving DecidableEq, Repr

/-- Dispatch one teardown trigger. -/
def applyTrigger (s : SessionState) (t : TeardownTrigger) : SessionState :=
  match t with
  | .leaveClick =>
      if s.leaveHandlerAttached then roomDisconnect { s with leaveHandlerAttached := false }
      else s
  | .beforeunload => roomDisconnect s
  | .pagehide => roomDisconnect s
  | .providerDisconnect => fireDisconnected { s with roomConnected := false }

/-- The observable end state the spec talks about: how often the local preview
was detached, the active surface cleared, the global room handle released, and
whether the returned Promise has settled. -/
def observables (s : SessionState) : Nat × Nat × Nat × Bool :=
  (s.localDetachCount, s.activeClearCount, s.roomHandleReleaseCount, s.promiseResolved)

/-- A session on which teardown has already run: room disconnected and the
`once` handler disarmed. -/
def tornDown (s : SessionState) : Bool :=
  !s.roomConnected && !s.disconnectedHandlerArmed

/-- Events arriving at a joined session: active-participant events (clicks,
dominant-speaker changes, participant disconnections) and teardown triggers. -/
inductive SessionEvent where
  | activeEvent (e : ActiveEvent)
  | trigger (t : TeardownTrigger)
  deriving DecidableEq, Repr

/-- The full client state `joinRoom` leaves behind after setup. -/
structure ClientState where
  active : ActiveState
  session : SessionState
  deriving DecidableEq, Repr

/-- Dispatch one session event: active-participant handlers never touch the
teardown state, teardown triggers never touch the active-participant state. -/
def clientStep (s : ClientState) (e : SessionEvent) : ClientState :=
  match e with
  | .activeEvent ev => { s with active := activeStep s.active ev }
  | .trigger t => { s with session := applyTrigger s.session t }

def runClient (s : ClientState) (evs : List SessionEvent) : ClientState :=
  evs.foldl clientStep s

def isTrigger : SessionEvent → Bool
  | .trigger _ => true
  | .activeEvent _ => false

/-- Actions performed by the `connect(...).then(room => ...)` setup callback
in `joinRoom`, in order, before it registers the event handlers. -/
inductive SetupAction where
  | setWindowRoom
  | attachPreview (participant : Nat)
  | registerParticipant (participant : Nat)
  deriving DecidableEq, Repr

/-- Does a setup action attach a preview or register a remote participant? -/
def touchesMedia : SetupAction → Bool
  | .setWindowRoom => false
  | .attachPreview _ => true
  | .registerParticipant _ => true

/-- The setup portion of `joinRoom`'s `then` callback: it stores `window.room`,
then evaluates `Array.from(room.localParticipant.videoTracks.values())[0].track`
— indexing the first element of the local participant's video-track list.  On
an empty list the index yields `undefined` and reading `.track` throws, so the
callback stops there (`false`); otherwise it attaches the local preview and
registers each remote participant already in the room (`true`). -/
def joinRoomSetup (localVideoTracks : List Nat) (localParticipant : Nat)
    (remoteParticipants : List Nat) : List SetupAction × Bool :=
  match localVideoTracks with
  | [] => ([SetupAction.setWindowRoom], false)
  | _ :: _ =>
      (SetupAction.setWindowRoom :: SetupAction.attachPreview localParticipant ::
        remoteParticipants.map SetupAction.registerParticipant, true)

end JoinRoom

namespace DeviceSelection

/-- The `kind` argument of `applyInputDevice` / `selectMedia`. -/
inductive MediaKind where
  | audio
  | video
  deriving DecidableEq, Repr

/-- Why `createLocalTracks` may reject. -/
inductive CaptureError where
  | noSuchDevice
  | permissionDenied
  deriving DecidableEq, Repr

/-- The state of the device-selection module: the `localTracks` cache
(`{ audio: null, video: null }`) holding at most one track id per kind, plus
bookkeeping of every capture track ever created (ids handed out in creation
order, so `nextId` is always fresh) and of the ids that have been stopped. -/
structure DevState where
  nextId : Nat
  created : List (Nat × MediaKind)
  stopped : List Nat
  cachedAudio : Option Nat
  cachedVideo : Option Nat
  deriving DecidableEq, Repr

/-- The module-load state: no track created, empty cache. -/
def initialDevState : DevState :=
  { nextId := 0, created := [], stopped := [], cachedAudio := none, cachedVideo := none }

/-- Read `localTracks[kind]`. -/
def localTracksGet (kind : MediaKind) (s : DevState) : Option Nat :=
  match kind with
  | .audio => s.cachedAudio
  | .video => s.cachedVideo

/-- Write `localTracks[kind]`. -/
def localTracksSet (kind : MediaKind) (v : Option Nat) (s : DevState) : DevState :=
  match kind with
  | .audio => { s with cachedAudio := v }
  | .video => { s with cachedVideo := v }

/-- Function `applyInputDevice(kind, deviceId, render)` with the outcome of
`createLocalTracks` supplied by the capture environment.  On rejection the
`then` callback never runs: the error propagates to the caller and the state
is untouched.  On success a fresh track has been created, then the callback
stops the previously cached track of that kind, if present, and caches the
fresh one. -/
def applyInputDevice (kind : MediaKind) (captureResult : Except CaptureError Unit)
    (s : DevState) : Except CaptureError Unit × DevState :=
  match captureResult with
  | .error e => (.error e, s)
  | .ok _ =>
      let newId := s.nextId
      let s1 : DevState :=
        { s with nextId := s.nextId + 1, created := (newId, kind) :: s.created }
      let s2 : DevState :=
        match localTracksGet kind s1 with
        | some prev => { s1 with stopped := prev :: s1.stopped }
        | none => s1
      (.ok (), localTracksSet kind (some newId) s2)

/-- The `hidden.bs.modal` handler in `selectMedia`: stop the cached track of
the selected kind, if present, and clear the cache entry. -/
def modalHiddenCleanup (kind : MediaKind) (s : DevState) : DevState :=
  match localTracksGet kind s with
  | some t => localTracksSet kind none { s with stopped := t :: s.stopped }
  | none => s

/-- The events of the device-selection flow: a device application whose
capture succeeded, one whose capture failed, and the closing of the selection
modal. -/
inductive DevEvent where
  | applyOk (kind : MediaKind)
  | applyFail (kind : MediaKind) (e : CaptureError)
  | modalHidden (kind : MediaKind)
  deriving DecidableEq, Repr

/-- Dispatch one device-selection event. -/
def devStep (s : DevState) (e : DevEvent) : DevState :=
  match e with
  | .applyOk k => (applyInputDevice k (.ok ()) s).2
  | .applyFail k err => (applyInputDevice k (.error err) s).2
  | .modalHidden k => modalHiddenCleanup k s

/-- Run a sequence of device-selection events from module load. -/
def runDev (evs : List DevEvent) : DevState :=
  evs.foldl devStep initialDevState

/-- The ids of the live capture tracks of a kind: created and not stopped. -/
def liveTracks (kind : MediaKind) (s : DevState) : List Nat :=
  (s.created.filter (fun p => p.2 == kind && !(decide (p.1 ∈ s.stopped)))).map Prod.fst

/-- The bookkeeping invariant of the device-selection state: ids are bounded
by `nextId`, no id appears twice in `created`, and every created, unstopped
track is exactly the one the `localTracks` cache holds for its kind. -/
structure DevInv (s : DevState) : Prop where
  createdLt : ∀ p ∈ s.created, p.1 < s.nextId
  stoppedLt : ∀ i ∈ s.stopped, i < s.nextId
  cachedLt : ∀ k i, localTracksGet k s = some i → i < s.nextId
  cachedOfUnstopped : ∀ p ∈ s.created, p.1 ∉ s.stopped → localTracksGet p.2 s = some p.1
  createdNodup : s.created.Pairwise (fun p q => p.1 ≠ q.1)

end DeviceSelection

namespace JoinRoom

lemma onDominantSpeakerChanged_pinned (room : RoomSnapshot) (s : ActiveState)
    (h : s.isActiveParticipantPinned = true) :
    onDominantSpeakerChanged room s = s := by
  simp [onDominantSpeakerChanged, h]

lemma containerClick_pin (room : RoomSnapshot) (participant : Nat) (s : ActiveState)
    (h : ¬(s.activeParticipant = some participant ∧ s.isActiveParticipantPinned = true)) :
    containerClick room participant s =
      { activeParticipant := some participant, isActiveParticipantPinned := true } := by
  simp only [containerClick, if_neg h, setActiveParticipant]

lemma activeStep_pinnedAt (a : Nat) (e : ActiveEvent) (h : leavesPinAlone a e = true) :
    activeStep { activeParticipant := some a, isActiveParticipantPinned := true } e =
      { activeParticipant := some a, isActiveParticipantPinned := true } := by
  cases e with
  | dominantSpeakerChanged room =>
      simp [activeStep, onDominantSpeakerChanged]
  | click room p => simp [leavesPinAlone] at h
  | participantDisconnected room p =>
      simp only [leavesPinAlone, ne_eq, decide_eq_true_eq] at h
      simp only [activeStep, onParticipantDisconnected]
      rw [if_neg]
      rintro ⟨hpa, -⟩
      exact h (Option.some_injective _ hpa).symm

lemma runActive_pinnedAt (a : Nat) (evs : List ActiveEvent)
    (h : evs.all (leavesPinAlone a) = true) :
    runActive { activeParticipant := some a, isActiveParticipantPinned := true } evs =
      { activeParticipant := some a, isActiveParticipantPinned := true } := by
  induction evs with
  | nil => rfl
  | cons e rest ih =>
      simp only [List.all_cons, Bool.and_eq_true] at h
      simp only [runActive, List.foldl_cons, activeStep_pinnedAt a e h.1]
      exact ih h.2

/-- Claim C3: When a `participantDisconnected` event arrives for the currently
active participant while the pinned flag is set, the flag is cleared and the
active participant is re-resolved to dominant-speaker-or-local-participant;
for any other disconnecting participant (or when not pinned) the state is
unchanged. -/
theorem unpin_on_pinned_active_disconnect (room : RoomSnapshot) (p : Nat) (s : ActiveState) :
    (s.activeParticipant = some p ∧ s.isActiveParticipantPinned = true →
      onParticipantDisconnected room p s =
        { activeParticipant := some (room.dominantSpeaker.getD room.localParticipant),
          isActiveParticipantPinned := false }) ∧
    (¬(s.activeParticipant = some p ∧ s.isActiveParticipantPinned = true) →
      onParticipantDisconnected room p s = s) := by
  constructor
  · intro h
    simp only [onParticipantDisconnected, if_pos h, setCurrentActiveParticipant,
      setActiveParticipant]
  · intro h
    simp only [onParticipantDisconnected, if_neg h]

/-- Witness for `unpin_on_pinned_active_disconnect`: participant 4 pinned
active; 4 disconnects while 9 is the dominant speaker → active becomes 9,
unpinned; a disconnection of 8 instead leaves the state alone. -/
theorem unpin_on_pinned_active_disconnect_witness :
    onParticipantDisconnected ⟨some 9, 2⟩ 4 ⟨some 4, true⟩ =
        { activeParticipant := some 9, isActiveParticipantPinned := false } ∧
      onParticipantDisconnected ⟨some 9, 2⟩ 8 ⟨some 4, true⟩ = ⟨some 4, true⟩ :=
  ⟨(unpin_on_pinned_active_disconnect ⟨some 9, 2⟩ 4 ⟨some 4, true⟩).1 (by decide),
   (unpin_on_pinned_active_disconnect ⟨some 9, 2⟩ 8 ⟨some 4, true⟩).2 (by decide)⟩

/-- Claim C4: While not pinned, a `dominantSpeakerChanged` signal resolves the
active participant to the room's dominant speaker when one is reported and to
the local participant otherwise, leaving the pinned flag `false`; the same
resolution (`setCurrentActiveParticipant`) runs on initial session
establishment, so a local participant alone in the room (no dominant speaker)
becomes the active participant with `pinned = false`. -/
theorem automatic_resolution (room : RoomSnapshot) (s : ActiveState)
    (h : s.isActiveParticipantPinned = false) :
    onDominantSpeakerChanged room s =
        { activeParticipant := some (room.dominantSpeaker.getD room.localParticipant),
          isActiveParticipantPinned := false } ∧
      (setCurrentActiveParticipant room s).activeParticipant =
        some (room.dominantSpeaker.getD room.localParticipant) ∧
      (room.dominantSpeaker = none →
        setCurrentActiveParticipant room initialActiveState =
          { activeParticipant := some room.localParticipant,
            isActiveParticipantPinned := false }) := by
  refine ⟨?_, rfl, ?_⟩
  · simp only [onDominantSpeakerChanged, h, setCurrentActiveParticipant, setActiveParticipant]
    simp [h]
  · intro hdom
    simp [setCurrentActiveParticipant, setActiveParticipant, hdom, initialActiveState]

/-- Witness for `automatic_resolution`: unpinned state with a reported
dominant speaker 6, and the solo-join room with no dominant speaker. -/
theorem automatic_resolution_witness :
    onDominantSpeakerChanged ⟨some 6, 2⟩ ⟨some 2, false⟩ =
        { activeParticipant := some 6, isActiveParticipantPinned := false } ∧
      setCurrentActiveParticipant ⟨none, 2⟩ initialActiveState =
        { activeParticipant := some 2, isActiveParticipantPinned := false } :=
  ⟨(automatic_resolution ⟨some 6, 2⟩ ⟨some 2, false⟩ (by decide)).1,
   (automatic_resolution ⟨none, 2⟩ ⟨some 2, false⟩ (by decide)).2.2 (by decide)⟩

/-- Claim C5, counterexample: The claim asserts that from every state in which
participant `a` is not the pinned active participant, two clicks on `a` return
the active participant to its pre-pin value.  Reachable refutation: click
participant 1 (pinning it), then click participant 2 twice.  Before the double
click the active participant is 1 (and 2 is not the pinned active participant,
so the claim's precondition holds), but afterwards the active participant is
the auto-resolved local participant 0, not 1. -/
theorem toggle_pin_twice_counterexample :
    ¬((runActive initialActiveState [ActiveEvent.click ⟨none, 0⟩ 1]).activeParticipant = some 2 ∧
        (runActive initialActiveState
          [ActiveEvent.click ⟨none, 0⟩ 1]).isActiveParticipantPinned = true) ∧
      (runActive initialActiveState
          [ActiveEvent.click ⟨none, 0⟩ 1, ActiveEvent.click ⟨none, 0⟩ 2,
            ActiveEvent.click ⟨none, 0⟩ 2]).activeParticipant
        ≠ (runActive initialActiveState [ActiveEvent.click ⟨none, 0⟩ 1]).activeParticipant := by
  decide

/-- Claim C5, amended: From any state where `a` is not the pinned active
participant, two clicks on `a` with no intervening events always land on the
automatically resolved selection (dominant speaker, else local participant)
with `pinned = false`; this equals the pre-pin active participant exactly when
the pre-pin active participant was itself the auto-resolved selection. -/
theorem toggle_pin_twice (a : Nat) (room : RoomSnapshot) (s : ActiveState)
    (h : ¬(s.activeParticipant = some a ∧ s.isActiveParticipantPinned = true)) :
    (containerClick room a (containerClick room a s)).activeParticipant =
        some (room.dominantSpeaker.getD room.localParticipant) ∧
      (containerClick room a (containerClick room a s)).isActiveParticipantPinned = false ∧
      (s.activeParticipant = some (room.dominantSpeaker.getD room.localParticipant) →
        (containerClick room a (containerClick room a s)).activeParticipant =
          s.activeParticipant) := by
  rw [containerClick_pin room a s h]
  simp only [containerClick, setCurrentActiveParticipant, setActiveParticipant, if_pos
    (⟨rfl, rfl⟩ : (some a : Option Nat) = some a ∧ (true : Bool) = true)]
  refine ⟨rfl, rfl, ?_⟩
  intro hpre
  exact hpre.symm

/-- Witness for `toggle_pin_twice`: the unpinned auto-resolved state with
dominant speaker 3; double-clicking participant 5 returns to 3, unpinned. -/
theorem toggle_pin_twice_witness :
    (containerClick ⟨some 3, 0⟩ 5 (containerClick ⟨some 3, 0⟩ 5 ⟨some 3, false⟩)).activeParticipant
        = some 3 ∧
      (containerClick ⟨some 3, 0⟩ 5
          (containerClick ⟨some 3, 0⟩ 5 ⟨some 3, false⟩)).isActiveParticipantPinned = false ∧
      (containerClick ⟨some 3, 0⟩ 5 (containerClick ⟨some 3, 0⟩ 5 ⟨some 3, false⟩)).activeParticipant
        = (⟨some 3, false⟩ : ActiveState).activeParticipant :=
  ⟨(toggle_pin_twice 5 ⟨some 3, 0⟩ ⟨some 3, false⟩ (by decide)).1,
   (toggle_pin_twice 5 ⟨some 3, 0⟩ ⟨some 3, false⟩ (by decide)).2.1,
   (toggle_pin_twice 5 ⟨some 3, 0⟩ ⟨some 3, false⟩ (by decide)).2.2 (by decide)⟩

/-- Claim C1: A click on participant `a`'s container while `a` is not the pinned
active participant pins `a`; thereafter any sequence of events containing only
`dominantSpeakerChanged` signals (and, more generally, disconnections of
participants other than `a`) leaves the active participant equal to `a` and the
pinned flag `true` — only a further click or `a`'s own disconnection can end
the pin. -/
theorem pin_survives_dominant_speaker_changes
    (a : Nat) (room : RoomSnapshot) (s : ActiveState)
    (hnotPinned : ¬(s.activeParticipant = some a ∧ s.isActiveParticipantPinned = true))
    (evs : List ActiveEvent) (hevs : evs.all (leavesPinAlone a) = true) :
    (runActive (containerClick room a s) evs).activeParticipant = some a ∧
      (runActive (containerClick room a s) evs).isActiveParticipantPinned = true := by
  rw [containerClick_pin room a s hnotPinned, runActive_pinnedAt a evs hevs]
  exact ⟨rfl, rfl⟩

/-- Witness for `pin_survives_dominant_speaker_changes`: from the freshly
joined state, pin participant 7 and fire two dominant-speaker changes and a
disconnection of participant 3. -/
theorem pin_survives_dominant_speaker_changes_witness :
    (runActive (containerClick ⟨some 3, 5⟩ 7 initialActiveState)
        [ActiveEvent.dominantSpeakerChanged ⟨some 3, 5⟩,
         ActiveEvent.participantDisconnected ⟨some 3, 5⟩ 3,
         ActiveEvent.dominantSpeakerChanged ⟨none, 5⟩]).activeParticipant = some 7 ∧
      (runActive (containerClick ⟨some 3, 5⟩ 7 initialActiveState)
        [ActiveEvent.dominantSpeakerChanged ⟨some 3, 5⟩,
         ActiveEvent.participantDisconnected ⟨some 3, 5⟩ 3,
         ActiveEvent.dominantSpeakerChanged ⟨none, 5⟩]).isActiveParticipantPinned = true :=
  pin_survives_dominant_speaker_changes 7 ⟨some 3, 5⟩ initialActiveState
    (by decide) _ (by decide)

lemma count_map_subActions (evs : List SubEvent) : ∀ b : Bool, validFrom b evs = true →
    countAttach (evs.map subEventAction) + (if b then 1 else 0)
      = countDetach (evs.map subEventAction)
        + (if subStateAfter b evs then 1 else 0) := by
  induction evs with
  | nil => intro b _; simp [subStateAfter, countAttach, countDetach]
  | cons e rest ih =>
      intro b hv
      cases e with
      | subscribed =>
          simp only [validFrom, Bool.and_eq_true, Bool.not_eq_true'] at hv
          obtain ⟨hb, hv⟩ := hv
          subst hb
          have h1 := ih true hv
          simp only [List.map_cons, subEventAction, countAttach, countDetach, subStateAfter]
          simp only [if_true] at h1 ⊢
          simp at h1 ⊢
          omega
      | unsubscribed =>
          simp only [validFrom, Bool.and_eq_true] at hv
          obtain ⟨hb, hv⟩ := hv
          subst hb
          have h1 := ih false hv
          simp only [List.map_cons, subEventAction, countAttach, countDetach, subStateAfter]
          simp at h1 ⊢
          omega

lemma noAttachAfter_valid (evs : List SubEvent) : ∀ b : Bool, validFrom b evs = true →
    noAttachAfter b (evs.map subEventAction) = true := by
  induction evs with
  | nil => intro b _; simp [noAttachAfter]
  | cons e rest ih =>
      intro b hv
      cases e with
      | subscribed =>
          simp only [validFrom, Bool.and_eq_true, Bool.not_eq_true'] at hv
          obtain ⟨hb, hv⟩ := hv
          subst hb
          simpa [noAttachAfter] using ih true hv
      | unsubscribed =>
          simp only [validFrom, Bool.and_eq_true] at hv
          obtain ⟨hb, hv⟩ := hv
          subst hb
          simpa [noAttachAfter] using ih false hv

lemma noDoubleAttach_valid (evs : List SubEvent) (b : Bool) (hv : validFrom b evs = true) :
    noDoubleAttach ((if b then [TrackAction.attach] else []) ++ evs.map subEventAction)
      = true := by
  cases b with
  | false => simpa [noDoubleAttach] using noAttachAfter_valid evs false hv
  | true =>
      simp only [noDoubleAttach, if_true, List.singleton_append, noAttachAfter,
        Bool.not_false, Bool.true_and]
      exact noAttachAfter_valid evs true hv

/-- Claim C2: Over any valid publication event stream that ends unsubscribed
(the session tears every subscription down by its end), the attach operations
performed by the handlers registered in `trackPublished` exactly pair with the
detach operations: equal counts, never two attaches without an intervening
detach, and a publication that already carries a subscribed track at
registration time contributes exactly one immediate attach, not two. -/
theorem attach_detach_paired (alreadySubscribed : Bool) (evs : List SubEvent)
    (hvalid : validFrom alreadySubscribed evs = true)
    (hend : subStateAfter alreadySubscribed evs = false) :
    countAttach (trackPublishedActions alreadySubscribed evs)
        = countDetach (trackPublishedActions alreadySubscribed evs) ∧
      noDoubleAttach (trackPublishedActions alreadySubscribed evs) = true ∧
      countAttach (trackPublishedActions true evs)
        = countAttach (evs.map subEventAction) + 1 := by
  refine ⟨?_, ?_, ?_⟩
  · have hc := count_map_subActions evs alreadySubscribed hvalid
    rw [hend] at hc
    cases alreadySubscribed with
    | false =>
        simpa [trackPublishedActions] using hc
    | true =>
        simp only [trackPublishedActions, if_pos rfl, List.singleton_append, countAttach,
          countDetach]
        simpa using hc
  · exact noDoubleAttach_valid evs alreadySubscribed hvalid
  · simp [trackPublishedActions, countAttach]

/-- Witness for `attach_detach_paired`: a publication already subscribed at
registration, then unsubscribed, re-subscribed and unsubscribed again —
two attaches, two detaches, alternating. -/
theorem attach_detach_paired_witness :
    countAttach (trackPublishedActions true
          [SubEvent.unsubscribed, SubEvent.subscribed, SubEvent.unsubscribed])
        = countDetach (trackPublishedActions true
          [SubEvent.unsubscribed, SubEvent.subscribed, SubEvent.unsubscribed]) ∧
      noDoubleAttach (trackPublishedActions true
          [SubEvent.unsubscribed, SubEvent.subscribed, SubEvent.unsubscribed]) = true :=
  ⟨(attach_detach_paired true
      [SubEvent.unsubscribed, SubEvent.subscribed, SubEvent.unsubscribed]
      (by decide) (by decide)).1,
   (attach_detach_paired true
      [SubEvent.unsubscribed, SubEvent.subscribed, SubEvent.unsubscribed]
      (by decide) (by decide)).2.1⟩

lemma applyTrigger_tornDown (s : SessionState) (t : TeardownTrigger)
    (h : tornDown s = true) :
    observables (applyTrigger s t) = observables s ∧ tornDown (applyTrigger s t) = true := by
  simp only [tornDown, Bool.and_eq_true, Bool.not_eq_true'] at h
  obtain ⟨hc, ha⟩ := h
  cases t with
  | leaveClick =>
      by_cases hl : s.leaveHandlerAttached = true
      · simp [applyTrigger, hl, roomDisconnect, hc, observables, tornDown, ha]
      · simp [applyTrigger, hl, observables, tornDown, hc, ha]
  | beforeunload => simp [applyTrigger, roomDisconnect, hc, observables, tornDown, ha]
  | pagehide => simp [applyTrigger, roomDisconnect, hc, observables, tornDown, ha]
  | providerDisconnect =>
      simp [applyTrigger, fireDisconnected, ha, observables, tornDown]

lemma applyTrigger_initial (t : TeardownTrigger) :
    observables (applyTrigger initialSessionState t) = (1, 1, 1, true) ∧
      tornDown (applyTrigger initialSessionState t) = true := by
  cases t <;> decide

lemma foldl_applyTrigger_tornDown (ts : List TeardownTrigger) :
    ∀ s : SessionState, tornDown s = true →
      observables (ts.foldl applyTrigger s) = observables s := by
  induction ts with
  | nil => intro s _; rfl
  | cons t rest ih =>
      intro s hs
      obtain ⟨hobs, htorn⟩ := applyTrigger_tornDown s t hs
      simp only [List.foldl_cons]
      rw [ih (applyTrigger s t) htorn, hobs]

/-- Claim C6: Triggering teardown one or more times from any combination of
sources (leave button, `beforeunload`, `pagehide`, provider-initiated
disconnect) yields the same observable end state as a single trigger: the
local preview is detached exactly once, the active surface cleared exactly
once, the `window.room` handle released exactly once, and the second and later
triggers change no observable (every trigger is a total function — nothing is
raised). -/
theorem teardown_idempotent (t : TeardownTrigger) (ts : List TeardownTrigger) :
    observables ((t :: ts).foldl applyTrigger initialSessionState)
        = observables (applyTrigger initialSessionState t) ∧
      observables (applyTrigger initialSessionState t) = (1, 1, 1, true) := by
  obtain ⟨hobs, htorn⟩ := applyTrigger_initial t
  constructor
  · simp only [List.foldl_cons]
    exact foldl_applyTrigger_tornDown ts (applyTrigger initialSessionState t) htorn
  · exact hobs

lemma runClient_tornDown (evs : List SessionEvent) :
    ∀ s : ClientState, tornDown s.session = true →
      observables (runClient s evs).session = observables s.session := by
  induction evs with
  | nil => intro s _; rfl
  | cons e rest ih =>
      intro s hs
      cases e with
      | activeEvent ev =>
          simpa only [runClient, List.foldl_cons, clientStep] using
            ih { s with active := activeStep s.active ev } hs
      | trigger t =>
          obtain ⟨hobs, htorn⟩ := applyTrigger_tornDown s.session t hs
          simp only [runClient, List.foldl_cons, clientStep]
          have := ih { s with session := applyTrigger s.session t } htorn
          simp only [runClient] at this
          rw [this, hobs]

/-- Claim C7: The Promise `joinRoom` returns settles exactly when a teardown
trigger (hence the room's `disconnected` emission) has occurred: for every
event sequence after setup, the promise is resolved iff the sequence contains
a teardown trigger, and in that case the teardown (detaching the local
preview) has run exactly once — in particular with no trigger the promise is
still pending, so it never settles merely because the connection succeeded. -/
theorem promise_settles_only_after_disconnect (a0 : ActiveState) (evs : List SessionEvent) :
    (runClient { active := a0, session := initialSessionState } evs).session.promiseResolved
        = evs.any isTrigger ∧
      (runClient { active := a0, session := initialSessionState } evs).session.localDetachCount
        = (if evs.any isTrigger then 1 else 0) := by
  induction evs generalizing a0 with
  | nil => exact ⟨rfl, rfl⟩
  | cons e rest ih =>
      cases e with
      | activeEvent ev =>
          have h := ih (activeStep a0 ev)
          simpa only [runClient, List.foldl_cons, clientStep, List.any_cons, isTrigger,
            Bool.false_or] using h
      | trigger t =>
          obtain ⟨hobs, htorn⟩ := applyTrigger_initial t
          simp only [runClient, List.foldl_cons, clientStep, List.any_cons, isTrigger,
            Bool.true_or, if_true]
          have hrest := runClient_tornDown rest
            { active := a0, session := applyTrigger initialSessionState t } htorn
          simp only [runClient] at hrest
          have h1 : observables (List.foldl clientStep
              { active := a0, session := applyTrigger initialSessionState t } rest).session
              = (1, 1, 1, true) := by rw [hrest, hobs]
          simp only [observables, Prod.mk.injEq] at h1
          exact ⟨h1.2.2.2, h1.1⟩

/-- Claim C9: `joinRoom` has the unstated precondition that the local
participant publishes at least one video track: with an empty `videoTracks`
collection the post-connect setup fails (the callback throws while indexing
the empty collection) before any local preview is attached or any remote
participant is registered. -/
theorem empty_video_tracks_setup_fails (localParticipant : Nat) (remotes : List Nat) :
    (joinRoomSetup [] localParticipant remotes).2 = false ∧
      (joinRoomSetup [] localParticipant remotes).1.all (fun a => !touchesMedia a) = true ∧
      ∀ track otherTracks,
        (joinRoomSetup (track :: otherTracks) localParticipant remotes).2 = true :=
  ⟨rfl, rfl, fun _ _ => rfl⟩

end JoinRoom

namespace DeviceSelection

lemma applyOk_nextId (k : MediaKind) (s : DevState) :
    ((applyInputDevice k (.ok ()) s).2).nextId = s.nextId + 1 := by
  cases k <;> cases hc : s.cachedAudio <;> cases hv : s.cachedVideo <;>
    simp [applyInputDevice, localTracksGet, localTracksSet, hc, hv]

lemma applyOk_created (k : MediaKind) (s : DevState) :
    ((applyInputDevice k (.ok ()) s).2).created = (s.nextId, k) :: s.created := by
  cases k <;> cases hc : s.cachedAudio <;> cases hv : s.cachedVideo <;>
    simp [applyInputDevice, localTracksGet, localTracksSet, hc, hv]

lemma applyOk_stopped (k : MediaKind) (s : DevState) :
    ((applyInputDevice k (.ok ()) s).2).stopped =
      match localTracksGet k s with
      | some prev => prev :: s.stopped
      | none => s.stopped := by
  cases k <;> cases hc : s.cachedAudio <;> cases hv : s.cachedVideo <;>
    simp [applyInputDevice, localTracksGet, localTracksSet, hc, hv]

lemma applyOk_get_same (k : MediaKind) (s : DevState) :
    localTracksGet k ((applyInputDevice k (.ok ()) s).2) = some s.nextId := by
  cases k <;> cases hc : s.cachedAudio <;> cases hv : s.cachedVideo <;>
    simp [applyInputDevice, localTracksGet, localTracksSet, hc, hv]

lemma applyOk_get_ne (k k' : MediaKind) (s : DevState) (h : k' ≠ k) :
    localTracksGet k' ((applyInputDevice k (.ok ()) s).2) = localTracksGet k' s := by
  cases k <;> cases k' <;>
    first
    | exact absurd rfl h
    | cases hc : s.cachedAudio <;> cases hv : s.cachedVideo <;>
        simp [applyInputDevice, localTracksGet, localTracksSet, hc, hv]

lemma applyFail_eq (k : MediaKind) (e : CaptureError) (s : DevState) :
    applyInputDevice k (.error e) s = (.error e, s) := rfl

lemma modalHidden_nextId (k : MediaKind) (s : DevState) :
    (modalHiddenCleanup k s).nextId = s.nextId := by
  cases k <;> cases hc : s.cachedAudio <;> cases hv : s.cachedVideo <;>
    simp [modalHiddenCleanup, localTracksGet, localTracksSet, hc, hv]

lemma modalHidden_created (k : MediaKind) (s : DevState) :
    (modalHiddenCleanup k s).created = s.created := by
  cases k <;> cases hc : s.cachedAudio <;> cases hv : s.cachedVideo <;>
    simp [modalHiddenCleanup, localTracksGet, localTracksSet, hc, hv]

lemma modalHidden_stopped (k : MediaKind) (s : DevState) :
    (modalHiddenCleanup k s).stopped =
      match localTracksGet k s with
      | some t => t :: s.stopped
      | none => s.stopped := by
  cases k <;> cases hc : s.cachedAudio <;> cases hv : s.cachedVideo <;>
    simp [modalHiddenCleanup, localTracksGet, localTracksSet, hc, hv]

lemma modalHidden_get_same (k : MediaKind) (s : DevState) :
    localTracksGet k (modalHiddenCleanup k s) = none := by
  cases k <;> cases hc : s.cachedAudio <;> cases hv : s.cachedVideo <;>
    simp [modalHiddenCleanup, localTracksGet, localTracksSet, hc, hv]

lemma modalHidden_get_ne (k k' : MediaKind) (s : DevState) (h : k' ≠ k) :
    localTracksGet k' (modalHiddenCleanup k s) = localTracksGet k' s := by
  cases k <;> cases k' <;>
    first
    | exact absurd rfl h
    | cases hc : s.cachedAudio <;> cases hv : s.cachedVideo <;>
        simp [modalHiddenCleanup, localTracksGet, localTracksSet, hc, hv]

lemma devInv_applyOk (k : MediaKind) (s : DevState) (hinv : DevInv s) :
    DevInv ((applyInputDevice k (.ok ()) s).2) := by
  obtain ⟨h1, h2, h3, h4, h5⟩ := hinv
  refine ⟨?_, ?_, ?_, ?_, ?_⟩
  · intro p hp
    rw [applyOk_created] at hp
    rw [applyOk_nextId]
    rcases List.mem_cons.mp hp with hpe | hpc
    · subst hpe
      show s.nextId < s.nextId + 1
      omega
    · exact Nat.lt_succ_of_lt (h1 p hpc)
  · intro i hi
    rw [applyOk_stopped] at hi
    rw [applyOk_nextId]
    cases hc : localTracksGet k s with
    | none =>
        simp only [hc] at hi
        exact Nat.lt_succ_of_lt (h2 i hi)
    | some prev =>
        simp only [hc] at hi
        rcases List.mem_cons.mp hi with hie | hic
        · subst hie
          exact Nat.lt_succ_of_lt (h3 k i hc)
        · exact Nat.lt_succ_of_lt (h2 i hic)
  · intro k' i hget
    rw [applyOk_nextId]
    by_cases hk : k' = k
    · subst hk
      rw [applyOk_get_same] at hget
      injection hget with hi
      omega
    · rw [applyOk_get_ne k k' s hk] at hget
      exact Nat.lt_succ_of_lt (h3 k' i hget)
  · intro p hp hstop
    rw [applyOk_created] at hp
    rw [applyOk_stopped] at hstop
    rcases List.mem_cons.mp hp with hpe | hpc
    · subst hpe
      show localTracksGet k ((applyInputDevice k (.ok ()) s).2) = some s.nextId
      exact applyOk_get_same k s
    · cases hc : localTracksGet k s with
      | none =>
          simp only [hc] at hstop
          have hg := h4 p hpc hstop
          by_cases hpk : p.2 = k
          · rw [hpk, hc] at hg
            exact absurd hg (by simp)
          · rw [applyOk_get_ne k p.2 s hpk]
            exact hg
      | some prev =>
          simp only [hc, List.mem_cons, not_or] at hstop
          obtain ⟨hne, hstop'⟩ := hstop
          have hg := h4 p hpc hstop'
          by_cases hpk : p.2 = k
          · rw [hpk, hc] at hg
            injection hg with hg'
            exact absurd hg'.symm hne
          · rw [applyOk_get_ne k p.2 s hpk]
            exact hg
  · rw [applyOk_created]
    refine List.Pairwise.cons ?_ h5
    intro q hq
    show s.nextId ≠ q.1
    have := h1 q hq
    omega

lemma devInv_modalHidden (k : MediaKind) (s : DevState) (hinv : DevInv s) :
    DevInv (modalHiddenCleanup k s) := by
  obtain ⟨h1, h2, h3, h4, h5⟩ := hinv
  refine ⟨?_, ?_, ?_, ?_, ?_⟩
  · intro p hp
    rw [modalHidden_created] at hp
    rw [modalHidden_nextId]
    exact h1 p hp
  · intro i hi
    rw [modalHidden_stopped] at hi
    rw [modalHidden_nextId]
    cases hc : localTracksGet k s with
    | none =>
        simp only [hc] at hi
        exact h2 i hi
    | some t =>
        simp only [hc] at hi
        rcases List.mem_cons.mp hi with hie | hic
        · subst hie
          exact h3 k i hc
        · exact h2 i hic
  · intro k' i hget
    rw [modalHidden_nextId]
    by_cases hk : k' = k
    · subst hk
      rw [modalHidden_get_same] at hget
      exact absurd hget (by simp)
    · rw [modalHidden_get_ne k k' s hk] at hget
      exact h3 k' i hget
  · intro p hp hstop
    rw [modalHidden_created] at hp
    rw [modalHidden_stopped] at hstop
    cases hc : localTracksGet k s with
    | none =>
        simp only [hc] at hstop
        have hg := h4 p hp hstop
        by_cases hpk : p.2 = k
        · rw [hpk, hc] at hg
          exact absurd hg (by simp)
        · rw [modalHidden_get_ne k p.2 s hpk]
          exact hg
    | some t =>
        simp only [hc, List.mem_cons, not_or] at hstop
        obtain ⟨hne, hstop'⟩ := hstop
        have hg := h4 p hp hstop'
        by_cases hpk : p.2 = k
        · rw [hpk, hc] at hg
          injection hg with hg'
          exact absurd hg'.symm hne
        · rw [modalHidden_get_ne k p.2 s hpk]
          exact hg
  · rw [modalHidden_created]
    exact h5

lemma devInv_step (s : DevState) (e : DevEvent) (h : DevInv s) : DevInv (devStep s e) := by
  cases e with
  | applyOk k => exact devInv_applyOk k s h
  | applyFail k err => exact h
  | modalHidden k => exact devInv_modalHidden k s h

lemma devInv_init : DevInv initialDevState := by
  refine ⟨?_, ?_, ?_, ?_, ?_⟩
  · intro p hp
    exact absurd hp (List.not_mem_nil p)
  · intro i hi
    exact absurd hi (List.not_mem_nil i)
  · intro k i hget
    cases k <;> simp [localTracksGet, initialDevState] at hget
  · intro p hp
    exact absurd hp (List.not_mem_nil p)
  · exact List.Pairwise.nil

lemma devInv_foldl (evs : List DevEvent) :
    ∀ s : DevState, DevInv s → DevInv (evs.foldl devStep s) := by
  induction evs with
  | nil => intro s h; exact h
  | cons e rest ih =>
      intro s h
      exact ih (devStep s e) (devInv_step s e h)

lemma devInv_runDev (evs : List DevEvent) : DevInv (runDev evs) :=
  devInv_foldl evs initialDevState devInv_init

lemma liveTracks_length_le_one (s : DevState) (hinv : DevInv s) (k : MediaKind) :
    (liveTracks k s).length ≤ 1 := by
  unfold liveTracks
  rw [List.length_map]
  rcases hl : s.created.filter (fun p => p.2 == k && !(decide (p.1 ∈ s.stopped)))
    with _ | ⟨a, _ | ⟨b, rest⟩⟩
  · rw [hl]
    simp
  · rw [hl]
    simp
  · exfalso
    have hpw := (List.Pairwise.filter
      (fun p => p.2 == k && !(decide (p.1 ∈ s.stopped)))) hinv.createdNodup
    rw [hl] at hpw
    have hab : a.1 ≠ b.1 := (List.pairwise_cons.mp hpw).1 b (List.mem_cons_self b rest)
    have ha : a ∈ s.created.filter (fun p => p.2 == k && !(decide (p.1 ∈ s.stopped))) := by
      rw [hl]; exact List.mem_cons_self a _
    have hb : b ∈ s.created.filter (fun p => p.2 == k && !(decide (p.1 ∈ s.stopped))) := by
      rw [hl]; exact List.mem_cons_of_mem a (List.mem_cons_self b rest)
    rw [List.mem_filter] at ha hb
    obtain ⟨haC, haF⟩ := ha
    obtain ⟨hbC, hbF⟩ := hb
    simp only [Bool.and_eq_true, beq_iff_eq, Bool.not_eq_true', decide_eq_false_iff_not]
      at haF hbF
    have hga := hinv.cachedOfUnstopped a haC haF.2
    have hgb := hinv.cachedOfUnstopped b hbC hbF.2
    rw [haF.1] at hga
    rw [hbF.1] at hgb
    exact hab (Option.some_injective _ (hga.symm.trans hgb))

/-- Claim C8: When `createLocalTracks` rejects (no such device, permission
denied), `applyInputDevice` surfaces exactly that error to its caller, the
module state — in particular the `localTracks` cache entry for that kind — is
not mutated, and a previously cached track of that kind is still cached and is
stopped afterwards exactly if it was stopped before (a live one stays live). -/
theorem capture_failure_surfaced (kind : MediaKind) (e : CaptureError) (s : DevState) :
    (applyInputDevice kind (.error e) s).1 = .error e ∧
      (applyInputDevice kind (.error e) s).2 = s ∧
      ∀ t, localTracksGet kind s = some t →
        localTracksGet kind ((applyInputDevice kind (.error e) s).2) = some t ∧
          ((t ∈ ((applyInputDevice kind (.error e) s).2).stopped) ↔ t ∈ s.stopped) :=
  ⟨rfl, rfl, fun _ ht => ⟨ht, Iff.rfl⟩⟩

/-- Witness for `capture_failure_surfaced`: a state caching live audio track 0;
a failing audio capture leaves it cached and unstopped. -/
theorem capture_failure_surfaced_witness :
    (applyInputDevice MediaKind.audio (.error CaptureError.permissionDenied)
        ⟨1, [(0, MediaKind.audio)], [], some 0, none⟩).1
        = .error CaptureError.permissionDenied ∧
      localTracksGet MediaKind.audio
          ((applyInputDevice MediaKind.audio (.error CaptureError.permissionDenied)
            ⟨1, [(0, MediaKind.audio)], [], some 0, none⟩).2) = some 0 :=
  ⟨(capture_failure_surfaced MediaKind.audio CaptureError.permissionDenied
      ⟨1, [(0, MediaKind.audio)], [], some 0, none⟩).1,
   ((capture_failure_surfaced MediaKind.audio CaptureError.permissionDenied
      ⟨1, [(0, MediaKind.audio)], [], some 0, none⟩).2.2 0 rfl).1⟩

/-- Claim C10: Throughout any device-selection event sequence, at most one live
(created and unstopped) capture track per kind exists; a successful
`applyInputDevice` has stopped the previously cached track of its kind by the
time the fresh track (id `nextId`) is cached in its place, and closing the
selection modal stops the cached track and clears the cache entry. -/
theorem at_most_one_live_capture_track (evs : List DevEvent) (kind : MediaKind) :
    (liveTracks kind (runDev evs)).length ≤ 1 ∧
      (∀ prev, localTracksGet kind (runDev evs) = some prev →
        prev ∈ (devStep (runDev evs) (DevEvent.applyOk kind)).stopped ∧
          localTracksGet kind (devStep (runDev evs) (DevEvent.applyOk kind))
            = some (runDev evs).nextId) ∧
      ∀ t, localTracksGet kind (runDev evs) = some t →
        t ∈ (modalHiddenCleanup kind (runDev evs)).stopped ∧
          localTracksGet kind (modalHiddenCleanup kind (runDev evs)) = none := by
  refine ⟨liveTracks_length_le_one (runDev evs) (devInv_runDev evs) kind, ?_, ?_⟩
  · intro prev hprev
    constructor
    · show prev ∈ ((applyInputDevice kind (.ok ()) (runDev evs)).2).stopped
      rw [applyOk_stopped, hprev]
      exact List.mem_cons_self prev _
    · show localTracksGet kind ((applyInputDevice kind (.ok ()) (runDev evs)).2)
        = some (runDev evs).nextId
      exact applyOk_get_same kind (runDev evs)
  · intro t ht
    constructor
    · rw [modalHidden_stopped, ht]
      exact List.mem_cons_self t _
    · exact modalHidden_get_same kind (runDev evs)

/-- Witness for `at_most_one_live_capture_track`: two successful audio
applications in a row — one live audio track (the second), the first stopped;
a further application or the modal closing stops the cached track 1. -/
theorem at_most_one_live_capture_track_witness :
    (liveTracks MediaKind.audio
        (runDev [DevEvent.applyOk MediaKind.audio, DevEvent.applyOk MediaKind.audio])).length
        ≤ 1 ∧
      1 ∈ (devStep (runDev [DevEvent.applyOk MediaKind.audio, DevEvent.applyOk MediaKind.audio])
            (DevEvent.applyOk MediaKind.audio)).stopped ∧
      1 ∈ (modalHiddenCleanup MediaKind.audio
            (runDev [DevEvent.applyOk MediaKind.audio, DevEvent.applyOk MediaKind.audio])).stopped :=
  ⟨(at_most_one_live_capture_track
      [DevEvent.applyOk MediaKind.audio, DevEvent.applyOk MediaKind.audio] MediaKind.audio).1,
   ((at_most_one_live_capture_track
      [DevEvent.applyOk MediaKind.audio, DevEvent.applyOk MediaKind.audio]
        MediaKind.audio).2.1 1 (by decide)).1,
   ((at_most_one_live_capture_track
      [DevEvent.applyOk MediaKind.audio, DevEvent.applyOk MediaKind.audio]
        MediaKind.audio).2.2 1 (by decide)).1⟩

end DeviceSelection
